import Mathlib

/-!
Verification of the CRM webhook event pipeline.

The development shallowly embeds the Python sources of the repository:
* `WebhookV1` embeds src/lambda/webhook_ingestion.py
* `WebhookV2` embeds src/lambda2/webhook_ingestion.py
* `Proc1`     embeds src/lambda1/lead_processor.py
* `ProcCRM`   embeds src/crm-lead-system/lambda/lead_processor.py

Deserialized JSON payloads are modelled by the inductive `Json`; Python
dictionaries are association lists whose lookup takes the first matching
key.  Python exceptions are modelled by `Except PyExn`; the distinction
between the custom ValidationError of src/lambda2 and every other Python
exception is kept, because the handler maps the former to HTTP 400 and the
latter to HTTP 500.  Durable writes and outbound notification calls are
collected as explicit `Effect` traces.
-/

/-- A deserialized JSON value, as produced by json.loads. -/
inductive Json where
  | null
  | bool (b : Bool)
  | num (n : Int)
  | str (s : String)
  | arr (elems : List Json)
  | obj (fields : List (String × Json))

/-- First-match association-list lookup: Python dict subscript semantics
(dict keys are unique, so first match is the match). -/
def lookupField : List (String × Json) → String → Option Json
  | [], _ => none
  | (k, v) :: rest, key => if k = key then some v else lookupField rest key

/-- Python `key in d` membership test for a dict. -/
def hasField (fs : List (String × Json)) (k : String) : Bool :=
  (lookupField fs k).isSome

/-- Replace the value of a key, keeping its position, or append the pair:
the semantics of a Python dict literal that overrides a spread base. -/
def setField : List (String × Json) → String → Json → List (String × Json)
  | [], key, v => [(key, v)]
  | (k, w) :: rest, key, v =>
      if k = key then (key, v) :: rest else (k, w) :: setField rest key v

/-- Python truthiness of a JSON value (`if not x:` tests). -/
def Json.truthy : Json → Bool
  | .null => false
  | .bool b => b
  | .num n => n != 0
  | .str s => !s.isEmpty
  | .arr xs => !xs.isEmpty
  | .obj fs => !fs.isEmpty

/-- Equality test of a JSON value against a Python string literal, as in
`event.get("action") != "created"`. -/
def Json.isStr : Json → String → Bool
  | .str t, s => t = s
  | _, _ => false

/-- Total field projection used in theorem statements: the value stored
under a key of a JSON object, `null` when absent or not an object. -/
def Json.field : Json → String → Json
  | .obj fs, k => (lookupField fs k).getD .null
  | _, _ => .null

/-- Conversion of a JSON value to the string a Python f-string would
interpolate.  Only string lead ids occur in the claims; the composite
cases never feed a key in this development. -/
def pyStr : Json → String
  | .null => "None"
  | .bool true => "True"
  | .bool false => "False"
  | .num n => toString n
  | .str s => s
  | .arr _ => "<list>"
  | .obj _ => "<dict>"

/-- A Python exception: the custom ValidationError of src/lambda2 is kept
apart from every other exception class. -/
inductive PyExn where
  | validationError (msg : String)
  | otherError (msg : String)
deriving DecidableEq

/-- Python `d.get(key, default)`: AttributeError when the receiver is not
a dict. -/
def pyGetD (j : Json) (k : String) (d : Json) : Except PyExn Json :=
  match j with
  | .obj fs => .ok ((lookupField fs k).getD d)
  | _ => .error (.otherError "AttributeError")

/-- Python `d.get(key)` (default None). -/
def pyGet (j : Json) (k : String) : Except PyExn Json :=
  pyGetD j k .null

/-- Python `d[key]`: KeyError when absent, TypeError when the receiver is
not a dict. -/
def pyIndex (j : Json) (k : String) : Except PyExn Json :=
  match j with
  | .obj fs =>
      match lookupField fs k with
      | some v => .ok v
      | none => .error (.otherError "KeyError")
  | _ => .error (.otherError "TypeError")

/-- The fields of a JSON object, TypeError otherwise (models `{**body}`
spreading a non-mapping). -/
def pyFields (j : Json) : Except PyExn (List (String × Json)) :=
  match j with
  | .obj fs => .ok fs
  | _ => .error (.otherError "TypeError")

/-- Python `for x in j`: lists yield elements, strings yield one-character
strings, dicts yield their keys, everything else raises TypeError. -/
def pyIter (j : Json) : Except PyExn (List Json) :=
  match j with
  | .arr xs => .ok xs
  | .str s => .ok (s.toList.map fun c => Json.str (String.mk [c]))
  | .obj fs => .ok (fs.map fun p => Json.str p.1)
  | _ => .error (.otherError "TypeError")

/-- Result of one Ingestion Gateway invocation: the HTTP-style response
(status code and the dictionary that is json.dumps-ed into the body) and
the list of durable writes performed, as (key, stored value) pairs. -/
structure GwOut where
  statusCode : Nat
  bodyFields : List (String × Json)
  writes : List (String × Json)

namespace WebhookV1

/-- validate_webhook of src/lambda/webhook_ingestion.py, inner field loop:
for each required field, absence returns False, then the action is
compared against "created". -/
def checkFields (evfs : List (String × Json)) : List String → Bool
  | [] => true
  | f :: rest =>
      if hasField evfs f = false then false
      else if Json.isStr ((lookupField evfs "action").getD .null) "created" = false then false
      else checkFields evfs rest

/-- validate_webhook of src/lambda/webhook_ingestion.py.  A body or event
that is not a dict makes the membership tests or attribute accesses raise,
which the function catches, returning False. -/
def validate_webhook (body : Json) : Bool :=
  match body with
  | .obj bfs =>
      match lookupField bfs "event" with
      | some (.obj evfs) => checkFields evfs ["lead_id", "action", "data"]
      | _ => false
  | _ => false

/-- extract_lead_data of src/lambda/webhook_ingestion.py, the body of the
try block. -/
def extractGo (body : Json) : Except PyExn Json := do
  let ev ← pyIndex body "event"
  let data ← pyGetD ev "data" (.obj [])
  let lid ← pyGet ev "lead_id"
  let dn ← pyGetD data "display_name" (.str "Unknown")
  let sl ← pyGetD data "status_label" (.str "Unknown")
  let dc ← pyGet data "date_created"
  let sub ← pyGet body "subscription_id"
  let eid ← pyGet ev "id"
  return .obj [("lead_id", lid), ("display_name", dn), ("status_label", sl),
    ("date_created", dc), ("subscription_id", sub), ("event_id", eid)]

/-- extract_lead_data of src/lambda/webhook_ingestion.py: any exception is
caught and None is returned. -/
def extract_lead_data (body : Json) : Option Json :=
  (extractGo body).toOption

/-- store_lead_in_s3 of src/lambda/webhook_ingestion.py: computes the
deterministic key and the stored envelope (original payload plus
processed_at plus extracted_lead_data).  The put itself is modelled as
succeeding; `pfx` models the SOURCE_PREFIX environment value. -/
def store_lead_in_s3 (pfx now : String) (leadData body : Json) :
    Except PyExn (String × Json) := do
  let lid ← pyIndex leadData "lead_id"
  let bfs ← pyFields body
  let key := pfx ++ "crm_event_" ++ pyStr lid ++ ".json"
  let value := Json.obj
    (setField (setField bfs "processed_at" (.str now)) "extracted_lead_data" leadData)
  return (key, value)

/-- lambda_handler of src/lambda/webhook_ingestion.py, from the point
where the request body has been deserialized (lines 23-39). -/
def lambda_handler (pfx now : String) (body : Json) : GwOut :=
  if validate_webhook body = false then
    ⟨400, [("error", .str "Invalid webhook payload")], []⟩
  else
    match extract_lead_data body with
    | none => ⟨400, [("error", .str "Invalid lead data")], []⟩
    | some leadData =>
        match store_lead_in_s3 pfx now leadData body with
        | .error _ => ⟨500, [("error", .str "Internal server error")], []⟩
        | .ok (key, value) =>
            match pyIndex leadData "lead_id" with
            | .error _ =>
                -- the response line subscripts lead_data after the put
                ⟨500, [("error", .str "Internal server error")], [(key, value)]⟩
            | .ok lid =>
                ⟨200, [("message", .str "Lead received and stored successfully"),
                  ("lead_id", lid), ("s3_key", .str key)], [(key, value)]⟩

end WebhookV1

/-- Python `key in j` for an arbitrary JSON value that is already known to
support dict membership. -/
def Json.hasKey : Json → String → Bool
  | .obj fs, k => hasField fs k
  | _, _ => false

namespace WebhookV2

/-- validate_webhook of src/lambda2/webhook_ingestion.py: raises
ValidationError on a falsy event, a non-created action, or a missing
lead_id or data field, in that order.  An AttributeError from `.get` on a
non-dict propagates as a plain exception. -/
def validate_webhook (body : Json) : Except PyExn Unit :=
  match pyGet body "event" with
  | .error e => .error e
  | .ok ev =>
      if ev.truthy = false then .error (.validationError "Missing event object")
      else
        match pyGet ev "action" with
        | .error e => .error e
        | .ok act =>
            if act.isStr "created" = false then
              .error (.validationError "Unsupported event action")
            else if ev.hasKey "lead_id" = false then
              .error (.validationError "Missing required field: lead_id")
            else if ev.hasKey "data" = false then
              .error (.validationError "Missing required field: data")
            else .ok ()

/-- extract_lead_data of src/lambda2/webhook_ingestion.py: additionally
rejects a falsy lead_id with a ValidationError. -/
def extract_lead_data (body : Json) : Except PyExn Json := do
  let ev ← pyIndex body "event"
  let data ← pyGetD ev "data" (.obj [])
  let lid ← pyGet ev "lead_id"
  if lid.truthy = false then
    .error (.validationError "lead_id is required")
  else do
    let dn ← pyGetD data "display_name" (.str "Unknown")
    let sl ← pyGetD data "status_label" (.str "Unknown")
    let dc ← pyGet data "date_created"
    let sub ← pyGet body "subscription_id"
    let eid ← pyGet ev "id"
    return .obj [("lead_id", lid), ("display_name", dn), ("status_label", sl),
      ("date_created", dc), ("subscription_id", sub), ("event_id", eid)]

/-- store_lead_in_s3 of src/lambda2/webhook_ingestion.py: key and stored
envelope; the put succeeds in the nominal model (the retry wrapper around
transient failures is verified separately through `with_retry`). -/
def store_lead_in_s3 (pfx now : String) (leadData body : Json) :
    Except PyExn (String × Json) := do
  let lid ← pyIndex leadData "lead_id"
  let bfs ← pyFields body
  let key := pfx ++ "crm_event_" ++ pyStr lid ++ ".json"
  let value := Json.obj
    (setField (setField bfs "processed_at" (.str now)) "extracted_lead_data" leadData)
  return (key, value)

/-- The try block of lambda_handler of src/lambda2/webhook_ingestion.py:
validate, extract, store, then read the lead id for the response. -/
def handlerGo (pfx now : String) (body : Json) :
    Except PyExn (Json × String × Json) :=
  match validate_webhook body with
  | .error e => .error e
  | .ok _ =>
      match extract_lead_data body with
      | .error e => .error e
      | .ok leadData =>
          match store_lead_in_s3 pfx now leadData body with
          | .error e => .error e
          | .ok (key, value) =>
              match pyIndex leadData "lead_id" with
              | .error e => .error e
              | .ok lid => .ok (lid, key, value)

/-- lambda_handler of src/lambda2/webhook_ingestion.py, from the point
where the request body has been deserialized: ValidationError maps to 400,
any other exception to 500. -/
def lambda_handler (pfx now : String) (body : Json) : GwOut :=
  match handlerGo pfx now body with
  | .ok (lid, key, value) =>
      ⟨200, [("message", .str "Lead received and stored successfully"),
        ("lead_id", lid), ("s3_key", .str key)], [(key, value)]⟩
  | .error (.validationError m) => ⟨400, [("error", .str m)], []⟩
  | .error (.otherError _) => ⟨500, [("error", .str "Internal server error")], []⟩

end WebhookV2

/-!
The retry decorator of src/lambda2/webhook_ingestion.py (with_retry).
An attempt either returns, raises the RetryableError marker, or raises
any other (fatal) exception, which the wrapper does not catch.
-/

/-- Outcome of one call of the function wrapped by with_retry. -/
inductive CallOutcome where
  | ok
  | retryable
  | fatal
deriving DecidableEq

/-- How a with_retry invocation ends when it does not succeed. -/
inductive RetryFail where
  | retryableExhausted
  | fatal
deriving DecidableEq

/-- The attempt loop of with_retry: attempt numbers run from `attempt`
while `fuel` iterations of `range(1, max_attempts + 1)` remain.  Returns
the final outcome together with the number of the last attempt made
(0 when the loop body never ran, in which case Python returns None). -/
def retryGo (f : Nat → CallOutcome) (maxAttempts : Nat) :
    Nat → Nat → Except RetryFail Unit × Nat
  | attempt, 0 => (.ok (), attempt - 1)
  | attempt, fuel + 1 =>
      match f attempt with
      | .ok => (.ok (), attempt)
      | .fatal => (.error .fatal, attempt)
      | .retryable =>
          if attempt = maxAttempts then (.error .retryableExhausted, attempt)
          else retryGo f maxAttempts (attempt + 1) fuel

/-- with_retry of src/lambda2/webhook_ingestion.py: calls the wrapped
function for attempts 1, ..., max_attempts; a RetryableError on the last
attempt is re-raised, any other exception propagates immediately.  The
backoff sleep only delays and does not change the outcome, so it is not
modelled. -/
def with_retry (maxAttempts : Nat) (f : Nat → CallOutcome) :
    Except RetryFail Unit × Nat :=
  retryGo f maxAttempts 1 maxAttempts

/-- The ClientError classification inside store_lead_in_s3 of
src/lambda2/webhook_ingestion.py: only these codes are re-raised as
RetryableError, everything else re-raises as-is. -/
def classifyS3Error (code : String) : CallOutcome :=
  if code = "Throttling" ∨ code = "SlowDown" ∨ code = "RequestTimeout" then
    .retryable
  else .fatal

/-- Test profile for the retry witness: fails transiently on the first two
attempts, succeeds on the third. -/
def retryProfileOk : Nat → CallOutcome := fun i =>
  if i < 3 then .retryable else .ok

/-- Test profile for the retry witness: always fails transiently. -/
def retryProfileAll : Nat → CallOutcome := fun _ => .retryable

/-- Test profile for the retry witness: a non-transient error on the first
attempt. -/
def retryProfileFatal : Nat → CallOutcome := fun i =>
  if i = 1 then .fatal else .ok

/-!
The Enrichment Processor.  External collaborators are modelled by an
environment: the stored-object reads, the owner-lookup HTTP exchange, the
Slack secret/webhook exchange and the SNS publish.
-/

/-- Observable side effects of one processor invocation. -/
inductive Effect where
  | procAttempt (bucket key : String)
  | s3Put (bucket key : String) (value : Json)
  | slackPost
  | snsPublish

/-- Wire outcome of the owner-lookup GET: a response with a status and a
body that json.loads either parses or fails on, or a raised transport
exception. -/
inductive HttpOutcome where
  | resp (status : Nat) (body : Except Unit Json)
  | exn

/-- Outcome of the Slack notification exchange: the secret fetch/parse
fails, the POST raises, or the POST returns a status. -/
inductive SlackWire where
  | secretErr
  | httpExn
  | status (n : Nat)

/-- Whether sns.publish raises. -/
inductive SnsWire where
  | ok
  | exn

/-- Notification configuration (USE_SLACK, USE_EMAIL, SNS_TOPIC_ARN,
SLACK_SECRET_NAME). -/
structure NotifCfg where
  useSlack : Bool
  useEmail : Bool
  snsArn : String
  slackSecretName : String

/-- The processor environment: deterministic outcomes for every external
interaction, plus configuration.  `read` is the result of fetching and
parsing a stored object (after the bounded read retries of src/lambda1);
`look` keys the lookup exchange by lead id. -/
structure Env where
  read : String → String → Except PyExn Json
  look : String → HttpOutcome
  slack : SlackWire
  sns : SnsWire
  cfg : NotifCfg
  bucketName : String
  tpfx : String
  now : String

/-- lookup_lead_owner, identical in src/lambda1/lead_processor.py and
src/crm-lead-system/lambda/lead_processor.py up to logging: a 200 response
with a parseable body yields the parsed value; a non-200 status, an
unparseable body or a raised transport exception all yield None. -/
def lookupOwnerWire (w : HttpOutcome) : Option Json :=
  match w with
  | .exn => none
  | .resp status body =>
      if status = 200 then
        match body with
        | .ok j => some j
        | .error _ => none
      else none

/-- lookup_lead_owner applied to the environment. -/
def lookup_lead_owner (env : Env) (lid : String) : Option Json :=
  lookupOwnerWire (env.look lid)

namespace Proc1

/-- The default OwnerLookupResult of src/lambda1/lead_processor.py
(enrich_lead_data lines 132-136). -/
def defaultOwner : Json :=
  .obj [("lead_email", .str "unknown@example.com"),
        ("lead_owner", .str "Unassigned"),
        ("funnel", .str "Unknown")]

/-- enrich_lead_data of src/lambda1/lead_processor.py: a falsy owner_data
is replaced by the default wholesale, then the record is assembled with
dict subscripts into owner_data and defaulted gets into the raw event. -/
def enrich_lead_data (now : String) (leadData : Json) (ownerData : Option Json) :
    Except PyExn Json := do
  let ev ← pyGetD leadData "event" (.obj [])
  let data ← pyGetD ev "data" (.obj [])
  let od := match ownerData with
    | some o => if o.truthy then o else defaultOwner
    | none => defaultOwner
  let lid ← pyGet ev "lead_id"
  let dn ← pyGetD data "display_name" (.str "Unknown")
  let sl ← pyGetD data "status_label" (.str "Unknown")
  let dc ← pyGet data "date_created"
  let le ← pyIndex od "lead_email"
  let lo ← pyIndex od "lead_owner"
  let fu ← pyIndex od "funnel"
  return .obj [("lead_id", lid), ("display_name", dn), ("status_label", sl),
    ("date_created", dc), ("lead_email", le), ("lead_owner", lo),
    ("funnel", fu), ("enriched_at", .str now)]

/-- send_slack of src/lambda1/lead_processor.py: fetches the secret,
builds the payload (subscripting display_name), posts, and raises
RuntimeError on a status of 400 or above.  No exception is caught here. -/
def send_slack (env : Env) (enriched : Json) : Except PyExn Unit × List Effect :=
  match env.slack with
  | .secretErr => (.error (.otherError "secrets error"), [])
  | .httpExn =>
      match pyIndex enriched "display_name" with
      | .error e => (.error e, [])
      | .ok _ => (.error (.otherError "connection error"), [.slackPost])
  | .status n =>
      match pyIndex enriched "display_name" with
      | .error e => (.error e, [])
      | .ok _ =>
          if 400 ≤ n then (.error (.otherError "Slack webhook failed"), [.slackPost])
          else (.ok (), [.slackPost])

/-- send_email of src/lambda1/lead_processor.py: builds the subject
(subscripting display_name) and publishes; a raised publish propagates. -/
def send_email (env : Env) (enriched : Json) : Except PyExn Unit × List Effect :=
  match pyIndex enriched "display_name" with
  | .error e => (.error e, [])
  | .ok _ =>
      match env.sns with
      | .ok => (.ok (), [.snsPublish])
      | .exn => (.error (.otherError "sns error"), [.snsPublish])

/-- send_notifications of src/lambda1/lead_processor.py: Slack first when
enabled; an exception from send_slack propagates, so the email branch is
only reached when Slack either is disabled or succeeded. -/
def send_notifications (env : Env) (enriched : Json) :
    Except PyExn Unit × List Effect :=
  if env.cfg.useSlack then
    match send_slack env enriched with
    | (.error e, effs) => (.error e, effs)
    | (.ok _, effs) =>
        if env.cfg.useEmail ∧ env.cfg.snsArn ≠ "" then
          let (r, effs2) := send_email env enriched
          (r, effs ++ effs2)
        else (.ok (), effs)
  else if env.cfg.useEmail ∧ env.cfg.snsArn ≠ "" then
    send_email env enriched
  else (.ok (), [])

/-- process_lead of src/lambda1/lead_processor.py: read the envelope,
require a truthy lead_id (raising ValueError otherwise), look up the
owner, enrich, persist, then dispatch notifications inside a try/except
that absorbs any notification failure. -/
def process_lead (env : Env) (rec : Json) : Except PyExn Unit × List Effect :=
  match (do
    let s3o ← pyIndex rec "s3"
    let bko ← pyIndex s3o "bucket"
    let bn ← pyIndex bko "name"
    let obo ← pyIndex s3o "object"
    let k ← pyIndex obo "key"
    return (pyStr bn, pyStr k) : Except PyExn (String × String)) with
  | .error e => (.error e, [])
  | .ok (bucket, key) =>
      let attempt : List Effect := [.procAttempt bucket key]
      match env.read bucket key with
      | .error e => (.error e, attempt)
      | .ok leadData =>
          match (do
            let ev ← pyGetD leadData "event" (.obj [])
            pyGet ev "lead_id" : Except PyExn Json) with
          | .error e => (.error e, attempt)
          | .ok lid =>
              if lid.truthy = false then
                (.error (.otherError "Missing lead_id in payload"), attempt)
              else
                let owner := lookup_lead_owner env (pyStr lid)
                match enrich_lead_data env.now leadData owner with
                | .error e => (.error e, attempt)
                | .ok enriched =>
                    let put : Effect := .s3Put env.bucketName
                      (env.tpfx ++ "enriched_" ++ pyStr lid ++ ".json") enriched
                    let (_, neffs) := send_notifications env enriched
                    (.ok (), attempt ++ [put] ++ neffs)

/-- Sequential processing of the inner s3 records of one SQS message: the
first raised exception aborts the remaining ones. -/
def processSeq (env : Env) : List Json → Except PyExn Unit × List Effect
  | [] => (.ok (), [])
  | r :: rest =>
      match process_lead env r with
      | (.error e, effs) => (.error e, effs)
      | (.ok _, effs) =>
          let (res, effs2) := processSeq env rest
          (res, effs ++ effs2)

/-- The body of the per-record try block of lambda_handler of
src/lambda1/lead_processor.py: parse the SQS body (None models a
json.loads failure) and process each inner s3 record. -/
def handleRecord (env : Env) (rec : Option Json) : Except PyExn Unit × List Effect :=
  match rec with
  | none => (.error (.otherError "JSONDecodeError"), [])
  | some body =>
      match pyGetD body "Records" (.arr []) with
      | .error e => (.error e, [])
      | .ok rs =>
          match pyIter rs with
          | .error e => (.error e, [])
          | .ok items => processSeq env items

/-- lambda_handler of src/lambda1/lead_processor.py over the Records of
the SQS event: any exception is logged and re-raised (the comment in the
source says this is to allow SQS retry), which aborts the loop, so later
records are not attempted. -/
def lambda_handler (env : Env) : List (Option Json) → Except PyExn Json × List Effect
  | [] => (.ok (.obj [("status", .str "ok")]), [])
  | r :: rest =>
      match handleRecord env r with
      | (.error e, effs) => (.error e, effs)
      | (.ok _, effs) =>
          let (res, effs2) := lambda_handler env rest
          (res, effs ++ effs2)

end Proc1

namespace ProcCRM

/-- The default OwnerLookupResult of
src/crm-lead-system/lambda/lead_processor.py (enrich_lead_data lines
89-93). -/
def defaultOwner : Json :=
  .obj [("lead_email", .str "not-available@example.com"),
        ("lead_owner", .str "Unassigned"),
        ("funnel", .str "Unknown")]

/-- enrich_lead_data of src/crm-lead-system/lambda/lead_processor.py.
The return statement of the source sits inside the `if not owner_data`
block, so a truthy owner_data makes the function fall through and return
Python None, modelled as `Json.null`. -/
def enrich_lead_data (now : String) (leadData : Json) (ownerData : Option Json) :
    Except PyExn Json := do
  let ev ← pyGetD leadData "event" (.obj [])
  let data ← pyGetD ev "data" (.obj [])
  let extracted ← pyGetD leadData "extracted_lead_data" (.obj [])
  let ownerFalsy := match ownerData with
    | none => true
    | some o => !o.truthy
  if ownerFalsy then do
    let od := defaultOwner
    let exLid ← pyGet extracted "lead_id"
    let lid ← pyGetD od "lead_id" exLid
    let exDn ← pyGetD extracted "display_name" (.str "Unknown")
    let dn ← pyGetD data "display_name" exDn
    let exSl ← pyGetD extracted "status_label" (.str "Unknown")
    let sl ← pyGetD data "status_label" exSl
    let exDc ← pyGet extracted "date_created"
    let dc ← pyGetD data "date_created" exDc
    let le ← pyGetD od "lead_email" (.str "N/A")
    let lo ← pyGetD od "lead_owner" (.str "Unassigned")
    let fu ← pyGetD od "funnel" (.str "Unknown")
    return .obj [("lead_id", lid), ("display_name", dn), ("status_label", sl),
      ("date_created", dc), ("lead_email", le), ("lead_owner", lo),
      ("funnel", fu), ("enriched_at", .str now)]
  else
    return .null

/-- The Slack message build of src/crm-lead-system: the blocks payload
subscripts these six fields of the enriched record. -/
def slackMsgFields (enriched : Json) : Except PyExn Unit := do
  let _ ← pyIndex enriched "display_name"
  let _ ← pyIndex enriched "lead_id"
  let _ ← pyIndex enriched "lead_email"
  let _ ← pyIndex enriched "lead_owner"
  let _ ← pyIndex enriched "funnel"
  let _ ← pyIndex enriched "status_label"
  return ()

/-- send_slack of src/crm-lead-system/lambda/lead_processor.py: the whole
body is inside try/except, so it never raises; an empty secret name skips
the channel; any failure before the POST suppresses the POST. -/
def send_slack (env : Env) (enriched : Json) : Except PyExn Unit × List Effect :=
  if env.cfg.slackSecretName = "" then (.ok (), [])
  else
    match env.slack with
    | .secretErr => (.ok (), [])
    | .httpExn =>
        match slackMsgFields enriched with
        | .error _ => (.ok (), [])
        | .ok _ => (.ok (), [.slackPost])
    | .status _ =>
        match slackMsgFields enriched with
        | .error _ => (.ok (), [])
        | .ok _ => (.ok (), [.slackPost])

/-- The email message build of src/crm-lead-system subscripts these seven
fields. -/
def emailMsgFields (enriched : Json) : Except PyExn Unit := do
  let _ ← pyIndex enriched "display_name"
  let _ ← pyIndex enriched "lead_id"
  let _ ← pyIndex enriched "date_created"
  let _ ← pyIndex enriched "status_label"
  let _ ← pyIndex enriched "lead_email"
  let _ ← pyIndex enriched "lead_owner"
  let _ ← pyIndex enriched "funnel"
  return ()

/-- send_email of src/crm-lead-system/lambda/lead_processor.py: the whole
body is inside try/except, so it never raises; an exception from
sns.publish is absorbed after the publish attempt. -/
def send_email (_env : Env) (enriched : Json) : Except PyExn Unit × List Effect :=
  match emailMsgFields enriched with
  | .error _ => (.ok (), [])
  | .ok _ => (.ok (), [.snsPublish])

/-- send_notifications of src/crm-lead-system/lambda/lead_processor.py:
Slack when enabled, then email when enabled and a topic is configured.
An exception from a channel would propagate, but both channels absorb
their own failures. -/
def send_notifications (env : Env) (enriched : Json) :
    Except PyExn Unit × List Effect :=
  match (if env.cfg.useSlack then send_slack env enriched else (.ok (), [])) with
  | (.error e, effs) => (.error e, effs)
  | (.ok _, effs) =>
      match (if env.cfg.useEmail ∧ env.cfg.snsArn ≠ "" then
          send_email env enriched else (.ok (), [])) with
      | (.error e, effs2) => (.error e, effs ++ effs2)
      | (.ok _, effs2) => (.ok (), effs ++ effs2)

/-- process_lead of src/crm-lead-system/lambda/lead_processor.py: read the
object, drop the item with a plain return when lead_id is falsy, look up
the owner, enrich, persist, then dispatch notifications with no
surrounding try. -/
def process_lead (env : Env) (rec : Json) : Except PyExn Unit × List Effect :=
  match (do
    let s3o ← pyIndex rec "s3"
    let bko ← pyIndex s3o "bucket"
    let bn ← pyIndex bko "name"
    let obo ← pyIndex s3o "object"
    let k ← pyIndex obo "key"
    return (pyStr bn, pyStr k) : Except PyExn (String × String)) with
  | .error e => (.error e, [])
  | .ok (bucket, key) =>
      let attempt : List Effect := [.procAttempt bucket key]
      match env.read bucket key with
      | .error e => (.error e, attempt)
      | .ok leadData =>
          match (do
            let ev ← pyGetD leadData "event" (.obj [])
            pyGet ev "lead_id" : Except PyExn Json) with
          | .error e => (.error e, attempt)
          | .ok lid =>
              if lid.truthy = false then
                (.ok (), attempt)
              else
                let owner := lookup_lead_owner env (pyStr lid)
                match enrich_lead_data env.now leadData owner with
                | .error e => (.error e, attempt)
                | .ok enriched =>
                    let put : Effect := .s3Put env.bucketName
                      (env.tpfx ++ "enriched_" ++ pyStr lid ++ ".json") enriched
                    match send_notifications env enriched with
                    | (.error e, neffs) => (.error e, attempt ++ [put] ++ neffs)
                    | (.ok _, neffs) => (.ok (), attempt ++ [put] ++ neffs)

/-- Sequential processing of the inner s3 records of one SQS message; the
first raised exception aborts the remaining ones. -/
def processSeq (env : Env) : List Json → Except PyExn Unit × List Effect
  | [] => (.ok (), [])
  | r :: rest =>
      match process_lead env r with
      | (.error e, effs) => (.error e, effs)
      | (.ok _, effs) =>
          let (res, effs2) := processSeq env rest
          (res, effs ++ effs2)

/-- The per-record try body of lambda_handler of src/crm-lead-system:
parse the SQS body, and when it holds a Records key, process each inner
record. -/
def handleRecord (env : Env) (rec : Option Json) : Except PyExn Unit × List Effect :=
  match rec with
  | none => (.error (.otherError "JSONDecodeError"), [])
  | some body =>
      match body with
      | .obj bfs =>
          if hasField bfs "Records" then
            match pyIter ((lookupField bfs "Records").getD .null) with
            | .error e => (.error e, [])
            | .ok items => processSeq env items
          else (.ok (), [])
      | _ => (.error (.otherError "TypeError"), [])

/-- lambda_handler of src/crm-lead-system/lambda/lead_processor.py.  The
per-record exception handler absorbs every failure, and the
`return {statusCode: 200}` of the source sits inside the record loop, so
the handler returns after the first record; with no records the loop
never runs and the function returns Python None. -/
def lambda_handler (env : Env) (records : List (Option Json)) :
    Except PyExn Json × List Effect :=
  match records with
  | [] => (.ok .null, [])
  | r :: _ =>
      let (_, effs) := handleRecord env r
      (.ok (.obj [("statusCode", .num 200)]), effs)

end ProcCRM

/-! Observation helpers used by the theorem statements. -/

/-- Whether a computation finished without a raised exception. -/
def exceptOk : Except PyExn α → Bool
  | .ok _ => true
  | .error _ => false

/-- Number of processing attempts recorded for a given object reference. -/
def attemptsFor (effs : List Effect) (b k : String) : Nat :=
  (effs.filter fun e =>
    match e with
    | .procAttempt b2 k2 => b2 = b ∧ k2 = k
    | _ => false).length

/-- Number of durable writes recorded under a given key. -/
def putsFor (effs : List Effect) (b k : String) : Nat :=
  (effs.filter fun e =>
    match e with
    | .s3Put b2 k2 _ => b2 = b ∧ k2 = k
    | _ => false).length

/-- Number of SNS publish attempts in a trace. -/
def snsPublishes (effs : List Effect) : Nat :=
  (effs.filter fun e =>
    match e with
    | .snsPublish => true
    | _ => false).length

/-- Number of Slack post attempts in a trace. -/
def slackPosts (effs : List Effect) : Nat :=
  (effs.filter fun e =>
    match e with
    | .slackPost => true
    | _ => false).length

/-! Concrete scenario inputs used by witnesses and counterexamples. -/

/-- A payload with no event object. -/
def bodyNoEvent : Json := .obj [("subscription_id", .str "whsub_test")]

/-- The scenario payload of the spec: lead L1, action created, data with a
display name only. -/
def bodyL1 : Json :=
  .obj [("event", .obj [("lead_id", .str "L1"), ("action", .str "created"),
    ("data", .obj [("display_name", .str "Acme Co")])])]

/-- A payload whose event carries an empty lead_id with action created. -/
def bodyEmptyLead : Json :=
  .obj [("event", .obj [("lead_id", .str ""), ("action", .str "created"),
    ("data", .obj [])])]

/-- A payload whose event carries a null lead_id with action created. -/
def bodyNullLead : Json :=
  .obj [("event", .obj [("lead_id", .null), ("action", .str "created"),
    ("data", .obj [])])]

/-- Canonical change-notification reference to s3://b/k, as delivered
inside an SQS message body. -/
def s3Rec (b k : String) : Json :=
  .obj [("s3", .obj [("bucket", .obj [("name", .str b)]),
    ("object", .obj [("key", .str k)])])]

/-- A stored raw-event envelope for lead L1, as the gateway writes it. -/
def envL1 : Json := .obj [
  ("subscription_id", .str "whsub_1"),
  ("event", .obj [("id", .str "ev_1"), ("lead_id", .str "L1"),
    ("action", .str "created"),
    ("data", .obj [("display_name", .str "Acme Co")])]),
  ("processed_at", .str "T1"),
  ("extracted_lead_data", .obj [("lead_id", .str "L1"),
    ("display_name", .str "Acme Co"), ("status_label", .str "Unknown"),
    ("date_created", .null)])]

/-- A structurally invalid stored envelope: its event has no lead_id. -/
def envNoLead : Json := .obj [("event", .obj [("action", .str "created")])]

/-- A complete owner-lookup result. -/
def ownerJane : Json := .obj [("lead_email", .str "jane@example.com"),
  ("lead_owner", .str "Jane"), ("funnel", .str "Sales")]

/-- A fully populated enriched record used to exercise the notification
channels. -/
def enr7 : Json := .obj [("lead_id", .str "L1"),
  ("display_name", .str "Acme Co"), ("status_label", .str "Unknown"),
  ("date_created", .null), ("lead_email", .str "jane@example.com"),
  ("lead_owner", .str "Jane"), ("funnel", .str "Sales"),
  ("enriched_at", .str "T7")]

/-- Notification configuration with both channels off. -/
def cfgNone : NotifCfg := ⟨false, false, "", ""⟩

/-- Notification configuration with both channels on. -/
def cfgBoth : NotifCfg := ⟨true, true, "arn-topic", "slack-secret"⟩

/-- Processor environment builder over bucket PB and target prefix
target/. -/
def mkEnv (read : String → String → Except PyExn Json)
    (look : String → HttpOutcome) (slack : SlackWire) (sns : SnsWire)
    (cfg : NotifCfg) (now : String) : Env :=
  ⟨read, look, slack, sns, cfg, "PB", "target/", now⟩

/-- Every stored object reads as `j`. -/
def readAll (j : Json) : String → String → Except PyExn Json :=
  fun _ _ => .ok j

/-- Reading key k1 raises a ClientError; every other key reads as `j`. -/
def readFailK1 (j : Json) : String → String → Except PyExn Json :=
  fun _ k => if k = "k1" then .error (.otherError "ClientError") else .ok j

/-- Every owner lookup raises a transport error. -/
def lookNone : String → HttpOutcome := fun _ => .exn

/-- Every owner lookup returns 200 with the Jane record. -/
def lookJane : String → HttpOutcome := fun _ => .resp 200 (.ok ownerJane)

/-- Environment for the batch-isolation scenario: reading k1 fails. -/
def env3 : Env := mkEnv (readFailK1 envL1) lookNone (.status 200) .ok cfgNone "T3"

/-- Environment for the enrichment scenario: reads succeed, lookup finds
Jane. -/
def env4 : Env := mkEnv (readAll envL1) lookJane (.status 200) .ok cfgNone "T4"

/-- Environment for the missing-lead_id scenario. -/
def env8 : Env := mkEnv (readAll envNoLead) lookNone (.status 200) .ok cfgNone "T8"

/-- SQS body holding the reference to k1. -/
def sqsBody1 : Json := .obj [("Records", .arr [s3Rec "B" "k1"])]

/-- SQS body holding the reference to k2. -/
def sqsBody2 : Json := .obj [("Records", .arr [s3Rec "B" "k2"])]

/-- SQS body holding the reference to k3. -/
def sqsBody3 : Json := .obj [("Records", .arr [s3Rec "B" "k3"])]

/-- SQS body holding the references to k1 and k2, in that order. -/
def sqsBody12 : Json := .obj [("Records", .arr [s3Rec "B" "k1", s3Rec "B" "k2"])]

/-- The canonical lead summary both gateway variants extract from a valid
payload: display name and status label default to "Unknown", the creation
date, subscription id and event id default to null. -/
def expectedSummary (bfs evfs dfs : List (String × Json)) (lid : String) : Json :=
  .obj [("lead_id", .str lid),
    ("display_name", (lookupField dfs "display_name").getD (.str "Unknown")),
    ("status_label", (lookupField dfs "status_label").getD (.str "Unknown")),
    ("date_created", (lookupField dfs "date_created").getD .null),
    ("subscription_id", (lookupField bfs "subscription_id").getD .null),
    ("event_id", (lookupField evfs "id").getD .null)]

/-! Association-list lemmas. -/

theorem lookup_setField_same (fs : List (String × Json)) (k : String) (v : Json) :
    lookupField (setField fs k v) k = some v := by
  induction fs with
  | nil => simp [setField, lookupField]
  | cons p rest ih =>
      obtain ⟨k0, v0⟩ := p
      by_cases h : k0 = k
      · simp [setField, lookupField, h]
      · simp [setField, lookupField, h, ih]

theorem lookup_setField_other (fs : List (String × Json)) (k k2 : String) (v : Json)
    (h : k2 ≠ k) : lookupField (setField fs k v) k2 = lookupField fs k2 := by
  induction fs with
  | nil => simp [setField, lookupField, Ne.symm h]
  | cons p rest ih =>
      obtain ⟨k0, v0⟩ := p
      by_cases h0 : k0 = k
      · subst h0
        simp [setField, lookupField, Ne.symm h]
      · by_cases h2 : k0 = k2
        · subst h2
          simp [setField, lookupField, h0, h]
        · simp [setField, lookupField, h0, h2, ih]

theorem pyGet_obj (fs : List (String × Json)) (k : String) :
    pyGet (Json.obj fs) k = .ok ((lookupField fs k).getD .null) := rfl

theorem pyGetD_obj (fs : List (String × Json)) (k : String) (d : Json) :
    pyGetD (Json.obj fs) k d = .ok ((lookupField fs k).getD d) := rfl

theorem pyIndex_some (fs : List (String × Json)) (k : String) (v : Json)
    (h : lookupField fs k = some v) : pyIndex (Json.obj fs) k = .ok v := by
  simp [pyIndex, h]

theorem field_obj (fs : List (String × Json)) (k : String) :
    Json.field (Json.obj fs) k = (lookupField fs k).getD .null := rfl

/-! Retry-loop lemmas. -/

theorem retryGo_ok (f : Nat → CallOutcome) (maxA : Nat) :
    ∀ fuel attempt m, attempt + fuel = maxA + 1 → m < fuel →
      (∀ i, i < m → f (attempt + i) = .retryable) → f (attempt + m) = .ok →
      retryGo f maxA attempt fuel = (.ok (), attempt + m) := by
  intro fuel
  induction fuel with
  | zero => intro attempt m _ hm; omega
  | succ fuel ih =>
      intro attempt m hsum hm hretry hok
      match m with
      | 0 =>
          simp only [Nat.add_zero] at hok
          simp [retryGo, hok]
      | m + 1 =>
          have h0 : f attempt = .retryable := by
            have := hretry 0 (by omega)
            simpa using this
          have hne : ¬ attempt = maxA := by omega
          have hrec : retryGo f maxA attempt (fuel + 1) =
              retryGo f maxA (attempt + 1) fuel := by
            simp [retryGo, h0, hne]
          rw [hrec]
          have := ih (attempt + 1) m (by omega) (by omega)
            (fun i hi => by
              have := hretry (i + 1) (by omega)
              simpa [Nat.add_assoc, Nat.add_comm 1 i] using this)
            (by
              have : attempt + 1 + m = attempt + (m + 1) := by omega
              rw [this]; exact hok)
          rw [this]
          congr 1
          omega

theorem retryGo_exhaust (f : Nat → CallOutcome) (maxA : Nat) :
    ∀ fuel attempt, attempt + fuel = maxA + 1 → 1 ≤ fuel →
      (∀ i, f i = .retryable) →
      retryGo f maxA attempt fuel = (.error .retryableExhausted, maxA) := by
  intro fuel
  induction fuel with
  | zero => intro attempt _ h1; omega
  | succ fuel ih =>
      intro attempt hsum _ hretry
      match fuel, ih with
      | 0, _ =>
          have ha : attempt = maxA := by omega
          subst ha
          simp [retryGo, hretry]
      | fuel + 1, ih =>
          have hne : ¬ attempt = maxA := by omega
          have hrec : retryGo f maxA attempt (fuel + 1 + 1) =
              retryGo f maxA (attempt + 1) (fuel + 1) := by
            simp [retryGo, hretry attempt, hne]
          rw [hrec]
          exact ih (attempt + 1) (by omega) (by omega) hretry

theorem retryGo_fatal (f : Nat → CallOutcome) (maxA : Nat) :
    ∀ fuel attempt m, attempt + fuel = maxA + 1 → m < fuel →
      (∀ i, i < m → f (attempt + i) = .retryable) → f (attempt + m) = .fatal →
      retryGo f maxA attempt fuel = (.error .fatal, attempt + m) := by
  intro fuel
  induction fuel with
  | zero => intro attempt m _ hm; omega
  | succ fuel ih =>
      intro attempt m hsum hm hretry hfatal
      match m with
      | 0 =>
          simp only [Nat.add_zero] at hfatal
          simp [retryGo, hfatal]
      | m + 1 =>
          have h0 : f attempt = .retryable := by
            have := hretry 0 (by omega)
            simpa using this
          have hne : ¬ attempt = maxA := by omega
          have hrec : retryGo f maxA attempt (fuel + 1) =
              retryGo f maxA (attempt + 1) fuel := by
            simp [retryGo, h0, hne]
          rw [hrec]
          have := ih (attempt + 1) m (by omega) (by omega)
            (fun i hi => by
              have := hretry (i + 1) (by omega)
              simpa [Nat.add_assoc, Nat.add_comm 1 i] using this)
            (by
              have : attempt + 1 + m = attempt + (m + 1) := by omega
              rw [this]; exact hfatal)
          rw [this]
          congr 1
          omega

/-- Claim C9: for the shared retry utility with bound max_attempts, an
operation that fails with a transient-tagged error on its first k calls
(k < max_attempts) and succeeds on call k+1 makes the overall call succeed
after exactly k+1 attempts; an operation that fails retryably on every
call makes the overall call re-raise after exactly max_attempts attempts;
an error not tagged transient propagates immediately, at whichever attempt
it occurs, with no further attempts; and the S3 classifier of
store_lead_in_s3 tags exactly Throttling, SlowDown and RequestTimeout as
transient. -/
theorem C9_retry_semantics (maxA : Nat) (f : Nat → CallOutcome) :
    (∀ k, k < maxA → (∀ i, i < k → f (i + 1) = .retryable) → f (k + 1) = .ok →
      with_retry maxA f = (.ok (), k + 1))
    ∧ ((∀ i, f i = .retryable) → 1 ≤ maxA →
      with_retry maxA f = (.error .retryableExhausted, maxA))
    ∧ (∀ j, 1 ≤ j → j ≤ maxA → (∀ i, i + 1 < j → f (i + 1) = .retryable) →
      f j = .fatal → with_retry maxA f = (.error .fatal, j))
    ∧ (∀ c, c ≠ "Throttling" → c ≠ "SlowDown" → c ≠ "RequestTimeout" →
      classifyS3Error c = .fatal) := by
  refine ⟨?_, ?_, ?_, ?_⟩
  · intro k hk hr hok
    have := retryGo_ok f maxA maxA 1 k (by omega) (by omega)
      (fun i hi => by
        have := hr i hi
        simpa [Nat.add_comm 1 i] using this)
      (by simpa [Nat.add_comm 1 k] using hok)
    simpa [with_retry, Nat.add_comm 1 k] using this
  · intro hr h1
    exact retryGo_exhaust f maxA maxA 1 (by omega) (by omega) hr
  · intro j h1 hj hr hfatal
    have := retryGo_fatal f maxA maxA 1 (j - 1) (by omega) (by omega)
      (fun i hi => by
        have := hr i (by omega)
        simpa [Nat.add_comm 1 i] using this)
      (by
        have : 1 + (j - 1) = j := by omega
        rw [this]; exact hfatal)
    have hjj : 1 + (j - 1) = j := by omega
    rw [hjj] at this
    simpa [with_retry] using this
  · intro c h1 h2 h3
    simp [classifyS3Error, h1, h2, h3]

/-- Witness for C9 at concrete attempt profiles with max_attempts = 3:
two transient failures then success gives success at attempt 3; permanent
transient failure exhausts at attempt 3; a fatal first call stops at
attempt 1; AccessDenied is not transient. -/
theorem C9_retry_semantics_witness :
    with_retry 3 retryProfileOk = (.ok (), 3)
    ∧ with_retry 3 retryProfileAll = (.error .retryableExhausted, 3)
    ∧ with_retry 3 retryProfileFatal = (.error .fatal, 1)
    ∧ classifyS3Error "AccessDenied" = .fatal := by
  refine ⟨?_, ?_, ?_, ?_⟩
  · exact (C9_retry_semantics 3 retryProfileOk).1 2 (by decide)
      (by decide) (by decide)
  · exact (C9_retry_semantics 3 retryProfileAll).2.1 (fun _ => rfl) (by decide)
  · exact (C9_retry_semantics 3 retryProfileFatal).2.2.1 1 (by decide) (by decide)
      (fun i hi => absurd hi (by omega)) (by decide)
  · exact (C9_retry_semantics 3 retryProfileFatal).2.2.2 "AccessDenied"
      (by decide) (by decide) (by decide)

/-! Gateway validation lemmas. -/

theorem checkFields_eq (evfs : List (String × Json)) :
    WebhookV1.checkFields evfs ["lead_id", "action", "data"] =
      (hasField evfs "lead_id" && hasField evfs "action" && hasField evfs "data"
        && Json.isStr ((lookupField evfs "action").getD .null) "created") := by
  by_cases h1 : hasField evfs "lead_id" = false <;>
    by_cases h2 : hasField evfs "action" = false <;>
      by_cases h3 : hasField evfs "data" = false <;>
        by_cases h4 : Json.isStr ((lookupField evfs "action").getD .null) "created" = false <;>
          simp_all [WebhookV1.checkFields]

theorem v2_validate_invalid (bfs evfs : List (String × Json))
    (hev : lookupField bfs "event" = some (.obj evfs))
    (hsub : hasField evfs "lead_id" = false ∨ hasField evfs "action" = false
      ∨ hasField evfs "data" = false
      ∨ Json.isStr ((lookupField evfs "action").getD .null) "created" = false) :
    ∃ m, WebhookV2.validate_webhook (.obj bfs) = .error (.validationError m) := by
  by_cases hE : evfs.isEmpty
  · exact ⟨"Missing event object",
      by simp [WebhookV2.validate_webhook, pyGet, pyGetD, hev, Json.truthy, hE]⟩
  · by_cases hA : Json.isStr ((lookupField evfs "action").getD .null) "created" = false
    · exact ⟨"Unsupported event action",
        by simp [WebhookV2.validate_webhook, pyGet, pyGetD, hev, Json.truthy, hE, hA]⟩
    · have hActPresent : hasField evfs "action" = true := by
        rcases ha : lookupField evfs "action" with _ | v
        · rw [ha] at hA
          simp [Json.isStr] at hA
        · simp [hasField, ha]
      rcases hsub with h1 | h2 | h3 | h4
      · exact ⟨"Missing required field: lead_id",
          by simp [WebhookV2.validate_webhook, pyGet, pyGetD, hev, Json.truthy, hE,
            hA, Json.hasKey, h1]⟩
      · rw [hActPresent] at h2
        exact absurd h2 (by simp)
      · by_cases hL : hasField evfs "lead_id" = false
        · exact ⟨"Missing required field: lead_id",
            by simp [WebhookV2.validate_webhook, pyGet, pyGetD, hev, Json.truthy, hE,
              hA, Json.hasKey, hL]⟩
        · exact ⟨"Missing required field: data",
            by simp [WebhookV2.validate_webhook, pyGet, pyGetD, hev, Json.truthy, hE,
              hA, Json.hasKey, hL, h3]⟩
      · exact absurd h4 hA

/-- Claim C1: an inbound payload whose body is missing the event object,
or whose event object is missing lead_id, action or data, or whose action
is not "created", makes both Ingestion Gateway variants return status 400
and perform no durable write. -/
theorem C1_invalid_payload_rejected (pfx now : String) (bfs : List (String × Json))
    (h : lookupField bfs "event" = none ∨ lookupField bfs "event" = some .null
       ∨ ∃ evfs, lookupField bfs "event" = some (.obj evfs)
           ∧ (hasField evfs "lead_id" = false ∨ hasField evfs "action" = false
              ∨ hasField evfs "data" = false
              ∨ Json.isStr ((lookupField evfs "action").getD .null) "created" = false)) :
    (WebhookV1.lambda_handler pfx now (.obj bfs)).statusCode = 400
    ∧ (WebhookV1.lambda_handler pfx now (.obj bfs)).writes = []
    ∧ (WebhookV2.lambda_handler pfx now (.obj bfs)).statusCode = 400
    ∧ (WebhookV2.lambda_handler pfx now (.obj bfs)).writes = [] := by
  have hv1 : WebhookV1.validate_webhook (.obj bfs) = false := by
    rcases h with h | h | ⟨evfs, hev, hsub⟩
    · simp [WebhookV1.validate_webhook, h]
    · simp [WebhookV1.validate_webhook, h]
    · have hcf : WebhookV1.validate_webhook (.obj bfs) =
          WebhookV1.checkFields evfs ["lead_id", "action", "data"] := by
        simp [WebhookV1.validate_webhook, hev]
      rw [hcf, checkFields_eq]
      rcases hsub with h1 | h1 | h1 | h1 <;> simp [h1]
  have hv2 : ∃ m, WebhookV2.validate_webhook (.obj bfs) = .error (.validationError m) := by
    rcases h with h | h | ⟨evfs, hev, hsub⟩
    · exact ⟨"Missing event object",
        by simp [WebhookV2.validate_webhook, pyGet, pyGetD, h, Json.truthy]⟩
    · exact ⟨"Missing event object",
        by simp [WebhookV2.validate_webhook, pyGet, pyGetD, h, Json.truthy]⟩
    · exact v2_validate_invalid bfs evfs hev hsub
  obtain ⟨m, hm⟩ := hv2
  refine ⟨?_, ?_, ?_, ?_⟩ <;>
    simp [WebhookV1.lambda_handler, WebhookV2.lambda_handler, WebhookV2.handlerGo, hv1, hm]

/-- Witness for C1: the payload with no event object is rejected with 400
and no write by both gateway variants. -/
theorem C1_invalid_payload_rejected_witness :
    (WebhookV1.lambda_handler "source/" "T0" bodyNoEvent).statusCode = 400
    ∧ (WebhookV1.lambda_handler "source/" "T0" bodyNoEvent).writes = []
    ∧ (WebhookV2.lambda_handler "source/" "T0" bodyNoEvent).statusCode = 400
    ∧ (WebhookV2.lambda_handler "source/" "T0" bodyNoEvent).writes = [] :=
  C1_invalid_payload_rejected "source/" "T0" [("subscription_id", .str "whsub_test")]
    (Or.inl rfl)

theorem ebind_ok {α β : Type} (a : α) (f : α → Except PyExn β) :
    (Except.ok a >>= f : Except PyExn β) = f a := rfl

theorem ebind_err {α β : Type} (e : PyExn) (f : α → Except PyExn β) :
    (Except.error e >>= f : Except PyExn β) = Except.error e := rfl

theorem emap_ok {α β : Type} (a : α) (f : α → β) :
    (f <$> (Except.ok a : Except PyExn α)) = Except.ok (f a) := rfl

theorem emap_err {α β : Type} (e : PyExn) (f : α → β) :
    (f <$> (Except.error e : Except PyExn α)) = Except.error e := rfl

theorem pyStr_str (s : String) : pyStr (.str s) = s := rfl

theorem isEmpty_false_of_lookup (fs : List (String × Json)) (k : String) (v : Json)
    (h : lookupField fs k = some v) : fs.isEmpty = false := by
  cases fs with
  | nil => simp [lookupField] at h
  | cons p rest => rfl

theorem hasField_of_lookup (fs : List (String × Json)) (k : String) (v : Json)
    (h : lookupField fs k = some v) : hasField fs k = true := by
  simp [hasField, h]

/-- Claim C2: a valid payload (event with lead_id, data and action
"created") makes both gateway variants perform exactly one durable write,
at key SOURCE_PREFIX ++ "crm_event_" ++ lead_id ++ ".json", storing the
original payload plus a processed_at stamp plus the extracted summary
whose display_name and status_label default to "Unknown" and whose
date_created defaults to null, and return 200 with a body carrying that
lead_id and that key. -/
theorem C2_valid_payload_stored (pfx now lid : String)
    (bfs evfs dfs : List (String × Json))
    (hev : lookupField bfs "event" = some (.obj evfs))
    (hlid : lookupField evfs "lead_id" = some (.str lid))
    (hlidne : lid.isEmpty = false)
    (hact : lookupField evfs "action" = some (.str "created"))
    (hdata : lookupField evfs "data" = some (.obj dfs)) :
    ∃ value,
      WebhookV1.lambda_handler pfx now (.obj bfs) =
        ⟨200, [("message", .str "Lead received and stored successfully"),
          ("lead_id", .str lid),
          ("s3_key", .str (pfx ++ "crm_event_" ++ lid ++ ".json"))],
          [(pfx ++ "crm_event_" ++ lid ++ ".json", value)]⟩
      ∧ WebhookV2.lambda_handler pfx now (.obj bfs) =
        ⟨200, [("message", .str "Lead received and stored successfully"),
          ("lead_id", .str lid),
          ("s3_key", .str (pfx ++ "crm_event_" ++ lid ++ ".json"))],
          [(pfx ++ "crm_event_" ++ lid ++ ".json", value)]⟩
      ∧ value.field "processed_at" = .str now
      ∧ value.field "extracted_lead_data" = expectedSummary bfs evfs dfs lid
      ∧ (∀ k2, k2 ≠ "processed_at" → k2 ≠ "extracted_lead_data" →
          value.field k2 = (Json.obj bfs).field k2) := by
  refine ⟨Json.obj (setField (setField bfs "processed_at" (.str now))
    "extracted_lead_data" (expectedSummary bfs evfs dfs lid)), ?_, ?_, ?_, ?_, ?_⟩
  · have hval : WebhookV1.validate_webhook (.obj bfs) = true := by
      have hcf : WebhookV1.validate_webhook (.obj bfs) =
          WebhookV1.checkFields evfs ["lead_id", "action", "data"] := by
        simp [WebhookV1.validate_webhook, hev]
      rw [hcf, checkFields_eq]
      simp [hasField_of_lookup _ _ _ hlid, hasField_of_lookup _ _ _ hact,
        hasField_of_lookup _ _ _ hdata, hact, Json.isStr]
    have hext : WebhookV1.extractGo (.obj bfs) =
        .ok (expectedSummary bfs evfs dfs lid) := by
      simp [WebhookV1.extractGo, pyIndex_some _ _ _ hev, pyGet, pyGetD, hlid, hact,
        hdata, expectedSummary, ebind_ok, ebind_err, emap_ok, emap_err]
    simp [WebhookV1.lambda_handler, hval, WebhookV1.extract_lead_data, hext,
      WebhookV1.store_lead_in_s3, pyIndex, pyFields, expectedSummary, lookupField,
      pyStr, Except.toOption, ebind_ok, ebind_err, emap_ok, emap_err]
  · have hval : WebhookV2.validate_webhook (.obj bfs) = .ok () := by
      simp [WebhookV2.validate_webhook, pyGet, pyGetD, hev, Json.truthy,
        isEmpty_false_of_lookup _ _ _ hlid, hact, Json.isStr, Json.hasKey,
        hasField_of_lookup _ _ _ hlid, hasField_of_lookup _ _ _ hdata]
    have hext : WebhookV2.extract_lead_data (.obj bfs) =
        .ok (expectedSummary bfs evfs dfs lid) := by
      simp [WebhookV2.extract_lead_data, pyIndex_some _ _ _ hev, pyGet, pyGetD, hlid,
        hact, hdata, Json.truthy, hlidne, expectedSummary, ebind_ok, ebind_err,
        emap_ok, emap_err]
    simp [WebhookV2.lambda_handler, WebhookV2.handlerGo, hval, hext,
      WebhookV2.store_lead_in_s3, pyIndex, pyFields, expectedSummary, lookupField,
      pyStr, ebind_ok, ebind_err, emap_ok, emap_err]
  · rw [field_obj, lookup_setField_other _ _ _ _ (by decide),
      lookup_setField_same]
    rfl
  · rw [field_obj, lookup_setField_same]
    rfl
  · intro k2 hk1 hk2
    rw [field_obj, lookup_setField_other _ _ _ _ hk2,
      lookup_setField_other _ _ _ _ hk1, field_obj]

/-- Witness for C2 at the spec scenario payload: both variants return 200,
write exactly source/crm_event_L1.json, and answer with lead L1. -/
theorem C2_valid_payload_stored_witness :
    (WebhookV1.lambda_handler "source/" "T1" bodyL1).statusCode = 200
    ∧ (WebhookV1.lambda_handler "source/" "T1" bodyL1).writes.map Prod.fst =
        ["source/crm_event_L1.json"]
    ∧ ("lead_id", Json.str "L1") ∈
        (WebhookV1.lambda_handler "source/" "T1" bodyL1).bodyFields
    ∧ (WebhookV2.lambda_handler "source/" "T1" bodyL1).statusCode = 200
    ∧ (WebhookV2.lambda_handler "source/" "T1" bodyL1).writes.map Prod.fst =
        ["source/crm_event_L1.json"]
    ∧ ("lead_id", Json.str "L1") ∈
        (WebhookV2.lambda_handler "source/" "T1" bodyL1).bodyFields := by
  obtain ⟨v, h1, h2, _, _, _⟩ :=
    C2_valid_payload_stored "source/" "T1" "L1"
      [("event", .obj [("lead_id", .str "L1"), ("action", .str "created"),
        ("data", .obj [("display_name", .str "Acme Co")])])]
      [("lead_id", .str "L1"), ("action", .str "created"),
        ("data", .obj [("display_name", .str "Acme Co")])]
      [("display_name", .str "Acme Co")]
      rfl rfl rfl rfl rfl
  have hb : bodyL1 = Json.obj [("event", .obj [("lead_id", .str "L1"),
      ("action", .str "created"),
      ("data", .obj [("display_name", .str "Acme Co")])])] := rfl
  rw [hb, h1, h2]
  refine ⟨rfl, rfl, by simp, rfl, rfl, by simp⟩

/-- Counterexample for C10: the src/lambda gateway variant accepts the
payload whose event carries an empty-string lead_id, returns 200 and
performs a durable write at source/crm_event_.json, instead of rejecting
it before any write. -/
theorem C10_counterexample_v1_accepts_empty_lead :
    (WebhookV1.lambda_handler "source/" "T2" bodyEmptyLead).statusCode = 200
    ∧ (WebhookV1.lambda_handler "source/" "T2" bodyEmptyLead).writes.map Prod.fst =
        ["source/crm_event_.json"]
    ∧ (WebhookV1.lambda_handler "source/" "T2" bodyEmptyLead).writes.length = 1 :=
  ⟨rfl, rfl, rfl⟩

/-- Claim C10 as amended: in the src/lambda2 gateway variant, every
payload for which a write is performed has a truthy (for a string:
non-empty) lead_id and action "created", and a payload whose event has a
falsy (empty or null) lead_id is rejected with 400 before any write; the
src/lambda variant lacks the emptiness check and accepts an empty
lead_id (see the counterexample). -/
theorem C10_accepted_lead_invariant (pfx now : String)
    (bfs evfs : List (String × Json)) (v : Json) :
    ((WebhookV2.lambda_handler pfx now (.obj bfs)).writes ≠ [] →
      (((Json.obj bfs).field "event").field "lead_id").truthy = true
      ∧ ((Json.obj bfs).field "event").field "action" = .str "created")
    ∧ (lookupField bfs "event" = some (.obj evfs) →
       lookupField evfs "lead_id" = some v → v.truthy = false →
       (WebhookV2.lambda_handler pfx now (.obj bfs)).statusCode = 400
       ∧ (WebhookV2.lambda_handler pfx now (.obj bfs)).writes = []) := by
  constructor
  · intro hw
    rcases hgo : WebhookV2.handlerGo pfx now (.obj bfs) with e | trip
    case error =>
      exfalso
      apply hw
      cases e <;> simp [WebhookV2.lambda_handler, hgo]
    case ok =>
      have hval : WebhookV2.validate_webhook (.obj bfs) = .ok () := by
        rcases hv : WebhookV2.validate_webhook (.obj bfs) with e | u
        · simp [WebhookV2.handlerGo, hv] at hgo
        · cases u
          rfl
      have hext : ∃ ld, WebhookV2.extract_lead_data (.obj bfs) = .ok ld := by
        rcases hx : WebhookV2.extract_lead_data (.obj bfs) with e | ld
        · simp [WebhookV2.handlerGo, hval, hx] at hgo
        · exact ⟨ld, rfl⟩
      obtain ⟨ld, hx⟩ := hext
      rcases hevl : lookupField bfs "event" with _ | evJ
      · rw [WebhookV2.extract_lead_data] at hx
        simp [pyIndex, hevl, ebind_err] at hx
      · have hpy : pyIndex (Json.obj bfs) "event" = .ok evJ := pyIndex_some _ _ _ hevl
        cases evJ with
        | null => rw [WebhookV2.extract_lead_data] at hx
                  simp [hpy, pyGetD, ebind_ok, ebind_err] at hx
        | bool b => rw [WebhookV2.extract_lead_data] at hx
                    simp [hpy, pyGetD, ebind_ok, ebind_err] at hx
        | num n => rw [WebhookV2.extract_lead_data] at hx
                   simp [hpy, pyGetD, ebind_ok, ebind_err] at hx
        | str s => rw [WebhookV2.extract_lead_data] at hx
                   simp [hpy, pyGetD, ebind_ok, ebind_err] at hx
        | arr xs => rw [WebhookV2.extract_lead_data] at hx
                    simp [hpy, pyGetD, ebind_ok, ebind_err] at hx
        | obj evfs2 =>
            have hl : ((lookupField evfs2 "lead_id").getD Json.null).truthy = true := by
              rw [WebhookV2.extract_lead_data] at hx
              by_cases hl0 :
                  ((lookupField evfs2 "lead_id").getD Json.null).truthy = false
              · simp [hpy, pyGetD, pyGet, ebind_ok, ebind_err, hl0] at hx
              · simpa using hl0
            have hlv : ∃ lv, lookupField evfs2 "lead_id" = some lv := by
              rcases hq : lookupField evfs2 "lead_id" with _ | lv
              · rw [hq] at hl
                simp [Json.truthy] at hl
              · exact ⟨lv, rfl⟩
            obtain ⟨lv, hlv⟩ := hlv
            have htr : (Json.obj evfs2).truthy = true := by
              simp [Json.truthy, isEmpty_false_of_lookup _ _ _ hlv]
            have hact2 :
                Json.isStr ((lookupField evfs2 "action").getD Json.null) "created"
                  = true := by
              rw [WebhookV2.validate_webhook] at hval
              simp [pyGet, pyGetD, hevl, htr] at hval
              by_cases hA : Json.isStr ((lookupField evfs2 "action").getD Json.null)
                  "created" = false
              · simp [hA] at hval
              · simpa using hA
            constructor
            · have hl2 := hl
              rw [hlv] at hl2
              simp at hl2
              simpa [field_obj, hevl, hlv] using hl2
            · have hact3 := hact2
              rcases hq2 : lookupField evfs2 "action" with _ | (_ | b | n | s | xs | fs2) <;>
                rw [hq2] at hact3
              · simp [Json.isStr] at hact3
              · simp [Json.isStr] at hact3
              · simp [Json.isStr] at hact3
              · simp [Json.isStr] at hact3
              · have hs : s = "created" := by simpa [Json.isStr] using hact3
                subst hs
                simp [field_obj, hevl, hq2]
              · simp [Json.isStr] at hact3
              · simp [Json.isStr] at hact3
  · intro hev hlid hfal
    have hne : evfs.isEmpty = false := isEmpty_false_of_lookup _ _ _ hlid
    have hpy : pyIndex (Json.obj bfs) "event" = .ok (.obj evfs) :=
      pyIndex_some _ _ _ hev
    by_cases ha : Json.isStr ((lookupField evfs "action").getD .null) "created" = false
    · have hval : WebhookV2.validate_webhook (.obj bfs) =
          .error (.validationError "Unsupported event action") := by
        simp [WebhookV2.validate_webhook, pyGet, pyGetD, hev, Json.truthy, hne, ha]
      constructor <;>
        simp [WebhookV2.lambda_handler, WebhookV2.handlerGo, hval]
    · by_cases hd : hasField evfs "data" = false
      · have hval : WebhookV2.validate_webhook (.obj bfs) =
            .error (.validationError "Missing required field: data") := by
          simp [WebhookV2.validate_webhook, pyGet, pyGetD, hev, Json.truthy, hne, ha,
            Json.hasKey, hasField_of_lookup _ _ _ hlid, hd]
        constructor <;>
          simp [WebhookV2.lambda_handler, WebhookV2.handlerGo, hval]
      · have hval : WebhookV2.validate_webhook (.obj bfs) = .ok () := by
          simp [WebhookV2.validate_webhook, pyGet, pyGetD, hev, Json.truthy, hne, ha,
            Json.hasKey, hasField_of_lookup _ _ _ hlid, hd]
        have hext : WebhookV2.extract_lead_data (.obj bfs) =
            .error (.validationError "lead_id is required") := by
          rw [WebhookV2.extract_lead_data]
          simp [hpy, pyGetD, pyGet, ebind_ok, ebind_err, hlid, hfal]
        constructor <;>
          simp [WebhookV2.lambda_handler, WebhookV2.handlerGo, hval, hext]

/-- Witness for C10: at the accepted scenario payload the invariant
conclusion holds (non-empty lead L1, action created), and the src/lambda2
variant rejects the empty-lead_id payload with 400 and no write. -/
theorem C10_accepted_lead_invariant_witness :
    ((((Json.obj [("event", Json.obj [("lead_id", Json.str "L1"),
        ("action", Json.str "created"),
        ("data", Json.obj [("display_name", Json.str "Acme Co")])])]).field
          "event").field "lead_id").truthy = true
      ∧ ((Json.obj [("event", Json.obj [("lead_id", Json.str "L1"),
        ("action", Json.str "created"),
        ("data", Json.obj [("display_name", Json.str "Acme Co")])])]).field
          "event").field "action" = .str "created")
    ∧ ((WebhookV2.lambda_handler "source/" "T2" bodyEmptyLead).statusCode = 400
      ∧ (WebhookV2.lambda_handler "source/" "T2" bodyEmptyLead).writes = []) := by
  constructor
  · apply (C10_accepted_lead_invariant "source/" "T1"
      [("event", Json.obj [("lead_id", Json.str "L1"),
        ("action", Json.str "created"),
        ("data", Json.obj [("display_name", Json.str "Acme Co")])])]
      [] Json.null).1
    intro h
    have hlen : (WebhookV2.lambda_handler "source/" "T1"
        (Json.obj [("event", Json.obj [("lead_id", Json.str "L1"),
          ("action", Json.str "created"),
          ("data", Json.obj [("display_name", Json.str "Acme Co")])])])).writes.length
        = 1 := rfl
    rw [h] at hlen
    exact absurd hlen (by decide)
  · exact (C10_accepted_lead_invariant "source/" "T2"
      [("event", Json.obj [("lead_id", Json.str ""),
        ("action", Json.str "created"), ("data", Json.obj [])])]
      [("lead_id", Json.str ""), ("action", Json.str "created"),
        ("data", Json.obj [])]
      (Json.str "")).2 rfl rfl rfl

/-- Claim C3, evaluated at its failing input (code bug): in the
src/lambda1 processor a batch of two SQS records whose first body is
unparseable ends with a re-raise after the first record, so the second
reference k2 is never attempted, although it is processed fine when
delivered alone; in the src/crm-lead-system processor a read failure on
the first of two references in one message stops the second from being
attempted while the handler still reports success (no redelivery), and
even two fully healthy records lose the second one because the return
statement sits inside the record loop. -/
theorem C3_batch_isolation_violated :
    (exceptOk (Proc1.lambda_handler env3 [none, some sqsBody2]).1 = false
      ∧ attemptsFor (Proc1.lambda_handler env3 [none, some sqsBody2]).2 "B" "k2" = 0)
    ∧ (exceptOk (Proc1.lambda_handler env3 [some sqsBody2]).1 = true
      ∧ attemptsFor (Proc1.lambda_handler env3 [some sqsBody2]).2 "B" "k2" = 1)
    ∧ (exceptOk (ProcCRM.lambda_handler env3 [some sqsBody12]).1 = true
      ∧ attemptsFor (ProcCRM.lambda_handler env3 [some sqsBody12]).2 "B" "k1" = 1
      ∧ attemptsFor (ProcCRM.lambda_handler env3 [some sqsBody12]).2 "B" "k2" = 0)
    ∧ attemptsFor (ProcCRM.lambda_handler env3 [some sqsBody2, some sqsBody3]).2
        "B" "k3" = 0 :=
  ⟨⟨rfl, rfl⟩, ⟨rfl, rfl⟩, ⟨rfl, rfl, rfl⟩, rfl⟩

/-- Claim C4, evaluated at its failing input (code bug): when the owner
lookup succeeds, the src/crm-lead-system enricher returns Python None
(its return statement sits inside the `if not owner_data` block), not a
populated record; the src/lambda1 enricher behaves as the claim states,
giving lookup fields precedence, raw fields for display name, status
label and creation date, stamping enriched_at, and persisting at
TARGET_PREFIX ++ "enriched_" ++ lead_id ++ ".json". -/
theorem C4_enriched_record_population :
    ProcCRM.enrich_lead_data "T4" envL1 (some ownerJane) = .ok .null
    ∧ Proc1.enrich_lead_data "T4" envL1 (some ownerJane) = .ok (.obj [
        ("lead_id", .str "L1"), ("display_name", .str "Acme Co"),
        ("status_label", .str "Unknown"), ("date_created", .null),
        ("lead_email", .str "jane@example.com"), ("lead_owner", .str "Jane"),
        ("funnel", .str "Sales"), ("enriched_at", .str "T4")])
    ∧ exceptOk (Proc1.process_lead env4 (s3Rec "B" "k2")).1 = true
    ∧ putsFor (Proc1.process_lead env4 (s3Rec "B" "k2")).2 "PB"
        "target/enriched_L1.json" = 1 :=
  ⟨rfl, rfl, rfl, rfl⟩

/-- Counterexample for C5: in the src/lambda1 enricher a failed lookup
yields lead_email "unknown@example.com", not the claimed
"not-available@example.com". -/
theorem C5_counterexample_lambda1_email_default :
    (Proc1.enrich_lead_data "T5" envL1 none).map
        (fun r => pyStr (r.field "lead_email")) = .ok "unknown@example.com"
    ∧ "unknown@example.com" ≠ "not-available@example.com" :=
  ⟨rfl, by decide⟩

/-- Claim C5 as amended: every lookup outcome other than a parseable 200
response collapses to None without raising; a raw event enriched with the
absent lookup result yields, in both processor variants, a fully
populated record with lead_owner "Unassigned" and funnel "Unknown" — the
default lead_email is "not-available@example.com" in the
src/crm-lead-system variant but "unknown@example.com" in the src/lambda1
variant. -/
theorem C5_lookup_failure_defaults (now : String)
    (lfs evfs dfs xfs : List (String × Json))
    (hev : lookupField lfs "event" = some (.obj evfs))
    (hdata : lookupField evfs "data" = some (.obj dfs))
    (hx : lookupField lfs "extracted_lead_data" = some (.obj xfs)) :
    (∀ w : HttpOutcome, lookupOwnerWire w = none
      ∨ ∃ j, w = .resp 200 (.ok j))
    ∧ Proc1.enrich_lead_data now (.obj lfs) none = .ok (.obj [
        ("lead_id", (lookupField evfs "lead_id").getD .null),
        ("display_name", (lookupField dfs "display_name").getD (.str "Unknown")),
        ("status_label", (lookupField dfs "status_label").getD (.str "Unknown")),
        ("date_created", (lookupField dfs "date_created").getD .null),
        ("lead_email", .str "unknown@example.com"),
        ("lead_owner", .str "Unassigned"),
        ("funnel", .str "Unknown"),
        ("enriched_at", .str now)])
    ∧ ProcCRM.enrich_lead_data now (.obj lfs) none = .ok (.obj [
        ("lead_id", (lookupField xfs "lead_id").getD .null),
        ("display_name", (lookupField dfs "display_name").getD
          ((lookupField xfs "display_name").getD (.str "Unknown"))),
        ("status_label", (lookupField dfs "status_label").getD
          ((lookupField xfs "status_label").getD (.str "Unknown"))),
        ("date_created", (lookupField dfs "date_created").getD
          ((lookupField xfs "date_created").getD .null)),
        ("lead_email", .str "not-available@example.com"),
        ("lead_owner", .str "Unassigned"),
        ("funnel", .str "Unknown"),
        ("enriched_at", .str now)]) := by
  refine ⟨?_, ?_, ?_⟩
  · intro w
    rcases w with ⟨status, body⟩ | _
    · by_cases h2 : status = 200
      · subst h2
        rcases body with e | j
        · left
          simp [lookupOwnerWire]
        · exact Or.inr ⟨j, rfl⟩
      · left
        simp [lookupOwnerWire, h2]
    · left
      rfl
  · simp [Proc1.enrich_lead_data, pyGetD, pyGet, pyIndex, Proc1.defaultOwner,
      lookupField, ebind_ok, hev, hdata]
  · simp [ProcCRM.enrich_lead_data, pyGetD, pyGet, pyIndex, ProcCRM.defaultOwner,
      lookupField, ebind_ok, hev, hdata, hx]

/-- Witness for C5 at the L1 envelope: a transport error collapses to
None, and the defaults are total in both variants. -/
theorem C5_lookup_failure_defaults_witness :
    lookupOwnerWire .exn = none
    ∧ (Proc1.enrich_lead_data "T5" envL1 none).map
        (fun r => pyStr (r.field "lead_owner")) = .ok "Unassigned"
    ∧ (ProcCRM.enrich_lead_data "T5" envL1 none).map
        (fun r => pyStr (r.field "lead_email")) = .ok "not-available@example.com"
    ∧ (ProcCRM.enrich_lead_data "T5" envL1 none).map
        (fun r => pyStr (r.field "funnel")) = .ok "Unknown" := by
  obtain ⟨hw, h1, h2⟩ := C5_lookup_failure_defaults "T5"
    [("subscription_id", .str "whsub_1"),
     ("event", .obj [("id", .str "ev_1"), ("lead_id", .str "L1"),
       ("action", .str "created"),
       ("data", .obj [("display_name", .str "Acme Co")])]),
     ("processed_at", .str "T1"),
     ("extracted_lead_data", .obj [("lead_id", .str "L1"),
       ("display_name", .str "Acme Co"), ("status_label", .str "Unknown"),
       ("date_created", .null)])]
    [("id", .str "ev_1"), ("lead_id", .str "L1"), ("action", .str "created"),
     ("data", .obj [("display_name", .str "Acme Co")])]
    [("display_name", .str "Acme Co")]
    [("lead_id", .str "L1"), ("display_name", .str "Acme Co"),
     ("status_label", .str "Unknown"), ("date_created", .null)]
    rfl rfl rfl
  have he : envL1 = Json.obj [
    ("subscription_id", .str "whsub_1"),
    ("event", .obj [("id", .str "ev_1"), ("lead_id", .str "L1"),
      ("action", .str "created"),
      ("data", .obj [("display_name", .str "Acme Co")])]),
    ("processed_at", .str "T1"),
    ("extracted_lead_data", .obj [("lead_id", .str "L1"),
      ("display_name", .str "Acme Co"), ("status_label", .str "Unknown"),
      ("date_created", .null)])] := rfl
  refine ⟨?_, ?_, ?_, ?_⟩
  · rcases hw HttpOutcome.exn with h | ⟨j, hj⟩
    · exact h
    · cases hj
  · rw [he, h1]
    rfl
  · rw [he, h2]
    rfl
  · rw [he, h2]
    rfl

/-! Notification-trace lemmas: no channel ever records a durable write. -/

theorem putsFor_append (a b : List Effect) (x y : String) :
    putsFor (a ++ b) x y = putsFor a x y + putsFor b x y := by
  simp [putsFor, List.filter_append]

theorem putsFor_send_slack1 (env : Env) (enr : Json) (b k : String) :
    putsFor (Proc1.send_slack env enr).2 b k = 0 := by
  rcases hs : env.slack with _ | _ | n
  · simp [Proc1.send_slack, hs, putsFor]
  · rcases hpi : pyIndex enr "display_name" with e | v <;>
      simp [Proc1.send_slack, hs, hpi, putsFor]
  · rcases hpi : pyIndex enr "display_name" with e | v
    · simp [Proc1.send_slack, hs, hpi, putsFor]
    · by_cases hn : 400 ≤ n <;> simp [Proc1.send_slack, hs, hpi, hn, putsFor]

theorem putsFor_send_email1 (env : Env) (enr : Json) (b k : String) :
    putsFor (Proc1.send_email env enr).2 b k = 0 := by
  rcases hpi : pyIndex enr "display_name" with e | v
  · simp [Proc1.send_email, hpi, putsFor]
  · rcases hn : env.sns with _ | _ <;>
      simp [Proc1.send_email, hpi, hn, putsFor]

theorem putsFor_send_notifications1 (env : Env) (enr : Json) (b k : String) :
    putsFor (Proc1.send_notifications env enr).2 b k = 0 := by
  by_cases hsl : env.cfg.useSlack = true
  · rcases hS : Proc1.send_slack env enr with ⟨r, effs⟩
    have h0 : putsFor effs b k = 0 := by
      have := putsFor_send_slack1 env enr b k
      rw [hS] at this
      exact this
    cases r with
    | error e => simp [Proc1.send_notifications, hsl, hS, h0]
    | ok u =>
        by_cases hem : env.cfg.useEmail ∧ env.cfg.snsArn ≠ ""
        · rcases hE : Proc1.send_email env enr with ⟨r2, effs2⟩
          have h2 : putsFor effs2 b k = 0 := by
            have := putsFor_send_email1 env enr b k
            rw [hE] at this
            exact this
          simp [Proc1.send_notifications, hsl, hS, hem, hE, putsFor_append, h0, h2]
        · simp [Proc1.send_notifications, hsl, hS, hem, h0]
  · by_cases hem : env.cfg.useEmail ∧ env.cfg.snsArn ≠ ""
    · have := putsFor_send_email1 env enr b k
      simp [Proc1.send_notifications, hsl, hem, this]
    · simp [Proc1.send_notifications, hsl, hem, putsFor]

theorem crm_send_slack_ok (env : Env) (enr : Json) :
    (ProcCRM.send_slack env enr).1 = .ok ()
    ∧ ∀ b k, putsFor (ProcCRM.send_slack env enr).2 b k = 0 := by
  by_cases hsn : env.cfg.slackSecretName = ""
  · simp [ProcCRM.send_slack, hsn, putsFor]
  · rcases hs : env.slack with _ | _ | n
    · simp [ProcCRM.send_slack, hsn, hs, putsFor]
    · rcases hm : ProcCRM.slackMsgFields enr with e | u <;>
        simp [ProcCRM.send_slack, hsn, hs, hm, putsFor]
    · rcases hm : ProcCRM.slackMsgFields enr with e | u <;>
        simp [ProcCRM.send_slack, hsn, hs, hm, putsFor]

theorem crm_send_email_ok (env : Env) (enr : Json) :
    (ProcCRM.send_email env enr).1 = .ok ()
    ∧ ∀ b k, putsFor (ProcCRM.send_email env enr).2 b k = 0 := by
  rcases hm : ProcCRM.emailMsgFields enr with e | u <;>
    simp [ProcCRM.send_email, hm, putsFor]

theorem crm_send_notifications_ok (env : Env) (enr : Json) (b k : String) :
    (ProcCRM.send_notifications env enr).1 = .ok ()
    ∧ putsFor (ProcCRM.send_notifications env enr).2 b k = 0 := by
  rcases hS : (if env.cfg.useSlack then ProcCRM.send_slack env enr
      else (Except.ok (), ([] : List Effect))) with ⟨r1, e1⟩
  have hr1 : r1 = .ok () ∧ putsFor e1 b k = 0 := by
    by_cases hsl : env.cfg.useSlack = true
    · rw [if_pos hsl] at hS
      refine ⟨?_, ?_⟩
      · have := (crm_send_slack_ok env enr).1
        rw [hS] at this
        exact this
      · have := (crm_send_slack_ok env enr).2 b k
        rw [hS] at this
        exact this
    · rw [if_neg hsl] at hS
      cases hS
      exact ⟨rfl, rfl⟩
  rcases hE : (if env.cfg.useEmail ∧ env.cfg.snsArn ≠ "" then ProcCRM.send_email env enr
      else (Except.ok (), ([] : List Effect))) with ⟨r2, e2⟩
  have hr2 : r2 = .ok () ∧ putsFor e2 b k = 0 := by
    by_cases hem : env.cfg.useEmail ∧ env.cfg.snsArn ≠ ""
    · rw [if_pos hem] at hE
      refine ⟨?_, ?_⟩
      · have := (crm_send_email_ok env enr).1
        rw [hE] at this
        exact this
      · have := (crm_send_email_ok env enr).2 b k
        rw [hE] at this
        exact this
    · rw [if_neg hem] at hE
      cases hE
      exact ⟨rfl, rfl⟩
  obtain ⟨hr1a, hr1b⟩ := hr1
  obtain ⟨hr2a, hr2b⟩ := hr2
  subst hr1a
  subst hr2a
  constructor
  · simp [ProcCRM.send_notifications, hS, hE]
  · simp [ProcCRM.send_notifications, hS, hE, putsFor_append, hr1b, hr2b]

/-- Claim C6: once the enriched record is durably stored, a failure of any
notification wire (secret error, raised POST, error status, raised
publish — the environment is arbitrary) is absorbed, the reference
finishes successfully in both processor variants, and the stored write
stays in the trace. -/
theorem C6_storage_unaffected_by_notifications (env : Env) (B K : String)
    (lfs evfs : List (String × Json)) (lid enr1 enr2 : Json)
    (hread : env.read B K = .ok (.obj lfs))
    (hev : lookupField lfs "event" = some (.obj evfs))
    (hlid : lookupField evfs "lead_id" = some lid)
    (htr : lid.truthy = true)
    (henr1 : Proc1.enrich_lead_data env.now (.obj lfs)
        (lookup_lead_owner env (pyStr lid)) = .ok enr1)
    (henr2 : ProcCRM.enrich_lead_data env.now (.obj lfs)
        (lookup_lead_owner env (pyStr lid)) = .ok enr2) :
    (Proc1.process_lead env (s3Rec B K)).1 = .ok ()
    ∧ putsFor (Proc1.process_lead env (s3Rec B K)).2 env.bucketName
        (env.tpfx ++ "enriched_" ++ pyStr lid ++ ".json") = 1
    ∧ (ProcCRM.process_lead env (s3Rec B K)).1 = .ok ()
    ∧ putsFor (ProcCRM.process_lead env (s3Rec B K)).2 env.bucketName
        (env.tpfx ++ "enriched_" ++ pyStr lid ++ ".json") = 1 := by
  have hchain : (do
      let ev ← pyGetD (Json.obj lfs) "event" (.obj [])
      pyGet ev "lead_id" : Except PyExn Json) = Except.ok lid := by
    simp [pyGetD, pyGet, ebind_ok, hev, hlid]
  have hparse : Proc1.process_lead env (s3Rec B K) =
      (.ok (), [Effect.procAttempt B K]
        ++ [Effect.s3Put env.bucketName
              (env.tpfx ++ "enriched_" ++ pyStr lid ++ ".json") enr1]
        ++ (Proc1.send_notifications env enr1).2) := by
    simp [Proc1.process_lead, s3Rec, pyIndex, lookupField, ebind_ok, pyStr_str,
      hread, hchain, htr, henr1]
  rcases hN : ProcCRM.send_notifications env enr2 with ⟨rn, neffs⟩
  have hrn : rn = .ok () := by
    have := (crm_send_notifications_ok env enr2 "x" "y").1
    rw [hN] at this
    exact this
  subst hrn
  have hneffs : putsFor neffs env.bucketName
      (env.tpfx ++ "enriched_" ++ pyStr lid ++ ".json") = 0 := by
    have := (crm_send_notifications_ok env enr2 env.bucketName
      (env.tpfx ++ "enriched_" ++ pyStr lid ++ ".json")).2
    rw [hN] at this
    exact this
  have hparse2 : ProcCRM.process_lead env (s3Rec B K) =
      (.ok (), [Effect.procAttempt B K]
        ++ [Effect.s3Put env.bucketName
              (env.tpfx ++ "enriched_" ++ pyStr lid ++ ".json") enr2]
        ++ neffs) := by
    simp [ProcCRM.process_lead, s3Rec, pyIndex, lookupField, ebind_ok, pyStr_str,
      hread, hchain, htr, henr2, hN]
  have ha : putsFor [Effect.procAttempt B K] env.bucketName
      (env.tpfx ++ "enriched_" ++ pyStr lid ++ ".json") = 0 := by simp [putsFor]
  have hb1 : putsFor [Effect.s3Put env.bucketName
      (env.tpfx ++ "enriched_" ++ pyStr lid ++ ".json") enr1] env.bucketName
      (env.tpfx ++ "enriched_" ++ pyStr lid ++ ".json") = 1 := by simp [putsFor]
  have hb2 : putsFor [Effect.s3Put env.bucketName
      (env.tpfx ++ "enriched_" ++ pyStr lid ++ ".json") enr2] env.bucketName
      (env.tpfx ++ "enriched_" ++ pyStr lid ++ ".json") = 1 := by simp [putsFor]
  have hp2 : (Proc1.process_lead env (s3Rec B K)).2 =
      [Effect.procAttempt B K]
        ++ [Effect.s3Put env.bucketName
              (env.tpfx ++ "enriched_" ++ pyStr lid ++ ".json") enr1]
        ++ (Proc1.send_notifications env enr1).2 := by rw [hparse]
  have hq2 : (ProcCRM.process_lead env (s3Rec B K)).2 =
      [Effect.procAttempt B K]
        ++ [Effect.s3Put env.bucketName
              (env.tpfx ++ "enriched_" ++ pyStr lid ++ ".json") enr2]
        ++ neffs := by rw [hparse2]
  refine ⟨by rw [hparse], ?_, by rw [hparse2], ?_⟩
  · rw [hp2, putsFor_append, putsFor_append, putsFor_send_notifications1,
      ha, hb1]
  · rw [hq2, putsFor_append, putsFor_append, hneffs, ha, hb2]

/-- Witness for C6: with the Slack webhook answering 500 and sns.publish
raising, both processor variants still succeed on the L1 reference and
the enriched write is in the trace. -/
theorem C6_storage_unaffected_by_notifications_witness :
    (Proc1.process_lead (mkEnv (readAll envL1) lookJane (.status 500) .exn
        cfgBoth "T6") (s3Rec "B" "k2")).1 = .ok ()
    ∧ putsFor (Proc1.process_lead (mkEnv (readAll envL1) lookJane (.status 500)
        .exn cfgBoth "T6") (s3Rec "B" "k2")).2 "PB" "target/enriched_L1.json" = 1
    ∧ (ProcCRM.process_lead (mkEnv (readAll envL1) lookJane (.status 500) .exn
        cfgBoth "T6") (s3Rec "B" "k2")).1 = .ok ()
    ∧ putsFor (ProcCRM.process_lead (mkEnv (readAll envL1) lookJane (.status 500)
        .exn cfgBoth "T6") (s3Rec "B" "k2")).2 "PB" "target/enriched_L1.json" = 1 :=
  C6_storage_unaffected_by_notifications
    (mkEnv (readAll envL1) lookJane (.status 500) .exn cfgBoth "T6") "B" "k2"
    [("subscription_id", .str "whsub_1"),
     ("event", .obj [("id", .str "ev_1"), ("lead_id", .str "L1"),
       ("action", .str "created"),
       ("data", .obj [("display_name", .str "Acme Co")])]),
     ("processed_at", .str "T1"),
     ("extracted_lead_data", .obj [("lead_id", .str "L1"),
       ("display_name", .str "Acme Co"), ("status_label", .str "Unknown"),
       ("date_created", .null)])]
    [("id", .str "ev_1"), ("lead_id", .str "L1"), ("action", .str "created"),
     ("data", .obj [("display_name", .str "Acme Co")])]
    (.str "L1")
    (.obj [("lead_id", .str "L1"), ("display_name", .str "Acme Co"),
      ("status_label", .str "Unknown"), ("date_created", .null),
      ("lead_email", .str "jane@example.com"), ("lead_owner", .str "Jane"),
      ("funnel", .str "Sales"), ("enriched_at", .str "T6")])
    .null
    rfl rfl rfl rfl rfl rfl

/-- Counterexample for C7: in src/lambda1 with both channels enabled, a
Slack response of 500 raises out of send_slack, so send_notifications
re-raises and the topic publish is never attempted. -/
theorem C7_counterexample_slack_blocks_email :
    exceptOk (Proc1.send_notifications (mkEnv (readAll envL1) lookJane
        (.status 500) .ok cfgBoth "T7") enr7).1 = false
    ∧ slackPosts (Proc1.send_notifications (mkEnv (readAll envL1) lookJane
        (.status 500) .ok cfgBoth "T7") enr7).2 = 1
    ∧ snsPublishes (Proc1.send_notifications (mkEnv (readAll envL1) lookJane
        (.status 500) .ok cfgBoth "T7") enr7).2 = 0 :=
  ⟨rfl, rfl, rfl⟩

/-- Claim C7 as amended: in the src/crm-lead-system dispatcher a Slack
failure of any kind (secret error, raised POST, any status) neither
prevents the email publish attempt nor raises to the caller; in the
src/lambda1 dispatcher a Slack failure does prevent the email attempt
(see the counterexample), but it still does not propagate as a fatal
pipeline error because process_lead catches it, and when Slack succeeds
and the publish raises, both channels were attempted and the error is
also absorbed by process_lead. -/
theorem C7_channel_isolation (w : SlackWire) :
    (ProcCRM.send_notifications (mkEnv (readAll envL1) lookJane w .ok
        cfgBoth "T7") enr7).1 = .ok ()
    ∧ snsPublishes (ProcCRM.send_notifications (mkEnv (readAll envL1) lookJane
        w .ok cfgBoth "T7") enr7).2 = 1
    ∧ exceptOk (Proc1.process_lead (mkEnv (readAll envL1) lookJane (.status 500)
        .ok cfgBoth "T7") (s3Rec "B" "k2")).1 = true
    ∧ snsPublishes (Proc1.process_lead (mkEnv (readAll envL1) lookJane
        (.status 500) .ok cfgBoth "T7") (s3Rec "B" "k2")).2 = 0
    ∧ slackPosts (Proc1.send_notifications (mkEnv (readAll envL1) lookJane
        (.status 200) .exn cfgBoth "T7") enr7).2 = 1
    ∧ snsPublishes (Proc1.send_notifications (mkEnv (readAll envL1) lookJane
        (.status 200) .exn cfgBoth "T7") enr7).2 = 1
    ∧ exceptOk (Proc1.process_lead (mkEnv (readAll envL1) lookJane (.status 200)
        .exn cfgBoth "T7") (s3Rec "B" "k2")).1 = true := by
  rcases w with _ | _ | n <;> exact ⟨rfl, rfl, rfl, rfl, rfl, rfl, rfl⟩

/-- Counterexample for C8: in src/lambda1 a stored envelope without
lead_id makes process_lead raise ValueError, and the handler re-raises,
so the delivery mechanism is told to retry the structurally invalid
reference instead of dropping it. -/
theorem C8_counterexample_lambda1_retries_invalid :
    exceptOk (Proc1.process_lead env8 (s3Rec "B" "k1")).1 = false
    ∧ (Proc1.process_lead env8 (s3Rec "B" "k1")).2 =
        [Effect.procAttempt "B" "k1"]
    ∧ exceptOk (Proc1.lambda_handler env8 [some sqsBody1]).1 = false :=
  ⟨rfl, rfl, rfl⟩

/-- Claim C8 as amended: in the src/crm-lead-system processor a stored
raw event whose lead_id is absent or falsy is dropped after the read —
the item finishes successfully with no write and no failure signalled,
so the delivery mechanism does not retry it; in the src/lambda1
processor the same reference raises, propagating failure so the item is
redelivered. -/
theorem C8_missing_lead_handling (env : Env) (B K : String)
    (lfs evfs : List (String × Json))
    (hread : env.read B K = .ok (.obj lfs))
    (hev : lookupField lfs "event" = some (.obj evfs))
    (hfal : ((lookupField evfs "lead_id").getD Json.null).truthy = false) :
    (ProcCRM.process_lead env (s3Rec B K)).1 = .ok ()
    ∧ (ProcCRM.process_lead env (s3Rec B K)).2 = [.procAttempt B K]
    ∧ exceptOk (Proc1.process_lead env (s3Rec B K)).1 = false := by
  have hchain : (do
      let ev ← pyGetD (Json.obj lfs) "event" (.obj [])
      pyGet ev "lead_id" : Except PyExn Json) =
      Except.ok ((lookupField evfs "lead_id").getD Json.null) := by
    simp [pyGetD, pyGet, ebind_ok, hev]
  refine ⟨?_, ?_, ?_⟩ <;>
    simp [ProcCRM.process_lead, Proc1.process_lead, s3Rec, pyIndex, lookupField,
      ebind_ok, pyStr_str, hread, hchain, hfal, exceptOk]

/-- Witness for C8: the concrete envelope whose event lacks lead_id is
dropped without retry by the crm variant and propagated for retry by the
lambda1 variant. -/
theorem C8_missing_lead_handling_witness :
    (ProcCRM.process_lead env8 (s3Rec "B" "k1")).1 = .ok ()
    ∧ (ProcCRM.process_lead env8 (s3Rec "B" "k1")).2 =
        [.procAttempt "B" "k1"]
    ∧ exceptOk (Proc1.process_lead env8 (s3Rec "B" "k1")).1 = false :=
  C8_missing_lead_handling env8 "B" "k1"
    [("event", .obj [("action", .str "created")])]
    [("action", .str "created")]
    rfl rfl rfl
